import Mathlib

/-!
Verification of the skill-generator orchestration core
(`.claude-plugin/skill-generator` of jbouey/skill-generator-marketplace).

The JavaScript source is shallowly embedded: each analyzer module's
exported function becomes a Lean function over an explicit filesystem
model `FSModel`; a JavaScript async function that may throw is embedded
as `Except String α`, with `try`/`catch` blocks becoming `match` on that
`Except`.  `Promise.allSettled` is modelled with an explicit completion
schedule so that order-independence of the report can be stated.
-/

namespace SkillGen

/-- Char-list prefix test used to embed JavaScript `String.includes`. -/
def prefHere : List Char → List Char → Bool
  | [], _ => true
  | _ :: _, [] => false
  | p :: ps, c :: cs => p == c && prefHere ps cs

/-- Scans a char list for an occurrence of `pat` (JavaScript `includes`). -/
def subSearch (pat : List Char) : List Char → Bool
  | [] => prefHere pat []
  | c :: cs => prefHere pat (c :: cs) || subSearch pat cs

/-- `containsSub s pat` embeds the JavaScript expression `s.includes(pat)`. -/
def containsSub (s pat : String) : Bool := subSearch pat.toList s.toList

/-- `condList b x` is `[x]` when `b` is true and `[]` otherwise; it embeds the
JavaScript pattern `if (cond) list.push(x)` used throughout the analyzers. -/
def condList (b : Bool) (x : α) : List α := if b then [x] else []

/-- A file found by a glob, together with its content when a later
`fs.readFile` of it succeeds (`none` embeds a read that throws). -/
structure FEntry where
  name : String
  content : Option String
deriving DecidableEq, Repr

/-- Model of one run's view of the workspace filesystem.  Each field is the
result of one probe call site in the source.  An `Option` that is `none`
models the corresponding `fs`/`glob` call throwing; a `Bool` field models an
`fs.access` existence check (false = access threw, i.e. file absent).
`pkgDeps` is the merged key set of `dependencies` and `devDependencies` of a
successfully read and parsed `package.json` (`none` = missing or unparsable);
every analyzer that re-reads `package.json` sees this same value, since the
workspace is fixed for the run. -/
structure FSModel where
  /-- merged dependency names of package.json, if readable and parsable -/
  pkgDeps : Option (List String)
  /-- fs.access(requirements.txt) succeeds -/
  reqExists : Bool
  /-- content of requirements.txt if readable -/
  reqContent : Option String
  hasPomXml : Bool
  hasBuildGradle : Bool
  hasGoMod : Bool
  hasCargoToml : Bool
  /-- tech-stack-analyzer glob for vercel/netlify/serverless/workflow files -/
  cloudFiles : Option (List String)
  hasDockerfile : Bool
  /-- tech-stack-analyzer glob for `**/*.yaml` -/
  yamlFiles : Option (List String)
  /-- api-analyzer glob for api/route/endpoint/controller files -/
  apiFiles : Option (List FEntry)
  /-- testing-analyzer glob for test/spec files -/
  testFiles : Option (List String)
  /-- react-analyzer glob for jsx/tsx component files -/
  reactFiles : Option (List FEntry)
  /-- react-analyzer glob for store/redux/zustand/mobx/recoil files -/
  stateFiles : Option (List FEntry)
  /-- performance-analyzer glob for db/database/model/query files -/
  dbFiles : Option (List String)
  /-- performance-analyzer glob for cache/redis/memcached files -/
  cacheFiles : Option (List String)
  /-- performance-analyzer glob for all js/ts sources (async scan) -/
  asyncFiles : Option (List FEntry)
  /-- backend-analyzer glob for server/api/route/controller/service files -/
  backendFiles : Option (List String)
  /-- backend-analyzer glob for api/route/endpoint files -/
  backendApiFiles : Option (List String)
  /-- backend-analyzer glob for middleware/interceptor files -/
  middlewareFiles : Option (List String)
  /-- frontend-analyzer glob for frontend sources -/
  frontendFiles : Option (List String)
  /-- frontend-analyzer glob for style sheets -/
  cssFiles : Option (List String)
  /-- database-analyzer glob for model/schema/migration/db files -/
  databaseFiles : Option (List String)
  /-- devops-analyzer glob for `.github/workflows/*.yml` -/
  cicdFiles : Option (List String)
  hasDockerComposeYml : Bool
  hasDockerComposeYaml : Bool
  /-- devops-analyzer glob for k8s/kubernetes yaml files -/
  k8sFiles : Option (List String)
  /-- devops-analyzer glob for terraform files -/
  iacFiles : Option (List String)
  /-- devops-analyzer glob for `.env*` files -/
  envFiles : Option (List String)
  /-- probe of the security analyzer (its module is not under src/) -/
  securityFiles : Option (List String)
deriving DecidableEq, Repr

/-- `hasDep deps d` embeds the JavaScript truthiness test `deps[d]`. -/
def hasDep (deps : List String) (d : String) : Bool := deps.contains d

/-- The tech-stack snapshot built by `analyzeTechStack`
(tech-stack-analyzer.js lines 144-158): plain arrays plus boolean flags. -/
structure TechStack where
  languages : List String
  frameworks : List String
  databases : List String
  buildTools : List String
  packageManagers : List String
  cloudProviders : List String
  hasReact : Bool
  hasTypeScript : Bool
  hasNode : Bool
  hasPython : Bool
  hasJava : Bool
  hasGo : Bool
  hasRust : Bool
deriving DecidableEq, Repr

/-- `languages` pushes of `analyzeTechStack`, in source order: JavaScript
(and TypeScript) from the package.json block (lines 207-210), Python from
requirements.txt (line 219), Java (lines 239/245), Go (line 256),
Rust (line 265). -/
def tsLanguages (fs : FSModel) : List String :=
  (match fs.pkgDeps with
   | some deps => ["JavaScript"] ++ condList (hasDep deps "typescript") "TypeScript"
   | none => []) ++
  condList fs.reqExists "Python" ++
  condList (fs.hasPomXml || fs.hasBuildGradle) "Java" ++
  condList fs.hasGoMod "Go" ++
  condList fs.hasCargoToml "Rust"

/-- `frameworks` pushes of `analyzeTechStack`: the Node block
(lines 173-190), then the requirements.txt block (lines 227-229); a
requirements read that throws after the successful access skips the
content checks (lines 223-231). -/
def tsFrameworks (fs : FSModel) : List String :=
  (match fs.pkgDeps with
   | some deps =>
     condList (hasDep deps "react" || hasDep deps "react-dom") "React" ++
     condList (hasDep deps "next") "Next.js" ++
     condList (hasDep deps "vue") "Vue.js" ++
     condList (hasDep deps "angular") "Angular" ++
     condList (hasDep deps "express") "Express" ++
     condList (hasDep deps "@nestjs/core") "NestJS" ++
     condList (hasDep deps "fastify") "Fastify" ++
     condList (hasDep deps "koa") "Koa"
   | none => []) ++
  (if fs.reqExists then
     match fs.reqContent with
     | some req =>
       condList (containsSub req "django") "Django" ++
       condList (containsSub req "flask") "Flask" ++
       condList (containsSub req "fastapi") "FastAPI"
     | none => []
   else [])

/-- `databases` pushes of `analyzeTechStack`: the Node dependency checks
(lines 193-198) and the `sqlalchemy` check on requirements.txt (line 230).
Both the sequelize/typeorm check and the `sqlalchemy` check push the
same identifier `SQL`; nothing deduplicates. -/
def tsDatabases (fs : FSModel) : List String :=
  (match fs.pkgDeps with
   | some deps =>
     condList (hasDep deps "mongoose") "MongoDB" ++
     condList (hasDep deps "sequelize" || hasDep deps "typeorm") "SQL" ++
     condList (hasDep deps "pg" || hasDep deps "pg-native") "PostgreSQL" ++
     condList (hasDep deps "mysql" || hasDep deps "mysql2") "MySQL" ++
     condList (hasDep deps "redis") "Redis" ++
     condList (hasDep deps "@prisma/client") "Prisma"
   | none => []) ++
  (if fs.reqExists then
     match fs.reqContent with
     | some req => condList (containsSub req "sqlalchemy") "SQL"
     | none => []
   else [])

/-- `buildTools` pushes: Node block (lines 201-204) then Dockerfile check
(line 287). -/
def tsBuildTools (fs : FSModel) : List String :=
  (match fs.pkgDeps with
   | some deps =>
     condList (hasDep deps "webpack") "Webpack" ++
     condList (hasDep deps "vite") "Vite" ++
     condList (hasDep deps "rollup") "Rollup" ++
     condList (hasDep deps "esbuild") "esbuild"
   | none => []) ++
  condList fs.hasDockerfile "Docker"

/-- `packageManagers` pushes: npm (line 166), pip (line 220), Maven or else
Gradle (lines 240/246). -/
def tsPackageManagers (fs : FSModel) : List String :=
  condList fs.pkgDeps.isSome "npm" ++
  condList fs.reqExists "pip" ++
  (if fs.hasPomXml then ["Maven"]
   else if fs.hasBuildGradle then ["Gradle"]
   else [])

/-- `cloudProviders` pushes: the cloud-config glob block (lines 271-282,
skipped entirely when the glob throws) then the Kubernetes yaml check
(lines 293-300). -/
def tsCloudProviders (fs : FSModel) : List String :=
  (match fs.cloudFiles with
   | some files =>
     condList (files.any (fun f => containsSub f "vercel")) "Vercel" ++
     condList (files.any (fun f => containsSub f "netlify")) "Netlify" ++
     condList (files.any (fun f => containsSub f "serverless")) "AWS Lambda" ++
     condList (files.any (fun f => containsSub f ".github/workflows")) "GitHub Actions"
   | none => []) ++
  (match fs.yamlFiles with
   | some files =>
     condList (files.any (fun f => containsSub f "k8s" || containsSub f "kubernetes")) "Kubernetes"
   | none => [])

/-- Embedding of `analyzeTechStack` (tech-stack-analyzer.js lines 139-307).
Every probe failure is caught by an inner try/catch in the source, so the
function is total: it always returns a `TechStack` and the outer catch
(lines 303-306, which would also return the accumulated `techStack`) is
never reached. -/
def analyzeTechStack (fs : FSModel) : TechStack :=
  { languages := tsLanguages fs
    frameworks := tsFrameworks fs
    databases := tsDatabases fs
    buildTools := tsBuildTools fs
    packageManagers := tsPackageManagers fs
    cloudProviders := tsCloudProviders fs
    hasReact := fs.pkgDeps.elim false (fun deps => hasDep deps "react" || hasDep deps "react-dom")
    hasTypeScript := fs.pkgDeps.elim false (fun deps => hasDep deps "typescript")
    hasNode := fs.pkgDeps.isSome
    hasPython := fs.reqExists
    hasJava := fs.hasPomXml || fs.hasBuildGradle
    hasGo := fs.hasGoMod
    hasRust := fs.hasCargoToml }

/-- A workspace root that does not exist: every `fs.access` fails, every
read fails, and every glob resolves to an empty match list (node-glob
resolves with `[]` on a missing cwd rather than rejecting). -/
def fsAbsent : FSModel :=
  { pkgDeps := none
    reqExists := false
    reqContent := none
    hasPomXml := false
    hasBuildGradle := false
    hasGoMod := false
    hasCargoToml := false
    cloudFiles := some []
    hasDockerfile := false
    yamlFiles := some []
    apiFiles := some []
    testFiles := some []
    reactFiles := some []
    stateFiles := some []
    dbFiles := some []
    cacheFiles := some []
    asyncFiles := some []
    backendFiles := some []
    backendApiFiles := some []
    middlewareFiles := some []
    frontendFiles := some []
    cssFiles := some []
    databaseFiles := some []
    cicdFiles := some []
    hasDockerComposeYml := false
    hasDockerComposeYaml := false
    k8sFiles := some []
    iacFiles := some []
    envFiles := some []
    securityFiles := some [] }

/-- A tech stack with no evidence at all (what `analyzeTechStack` yields on
an empty or missing workspace). -/
def tsNone : TechStack :=
  { languages := []
    frameworks := []
    databases := []
    buildTools := []
    packageManagers := []
    cloudProviders := []
    hasReact := false
    hasTypeScript := false
    hasNode := false
    hasPython := false
    hasJava := false
    hasGo := false
    hasRust := false }

/-- Embeds awaiting a fallible filesystem/glob operation inside a try block:
`none` (the operation threw) becomes an error that propagates to the
enclosing catch. -/
def tryOp : Option α → Except String α
  | some a => .ok a
  | none => .error "ENOENT"

/-- A skill document as produced by the analyzers.  `metadata` is embedded
as a flat key/value list (values rendered to strings); analyzers whose
source passes no metadata use `[]`. -/
structure Skill where
  name : String
  displayName : String
  description : String
  guidelines : List String
  category : String
  techStack : List String
  metadata : List (String × String)
deriving DecidableEq, Repr

/-- Result of the api-analyzer content loop (api-analyzer.js lines 22-38):
the two marker flags plus how many candidate files the loop inspected
(each iteration attempts one read, readable or not). -/
structure ApiScanResult where
  hasREST : Bool
  hasGraphQL : Bool
  inspected : Nat
deriving DecidableEq, Repr

/-- One iteration of the api-analyzer content loop: an unreadable file is
skipped (inner catch) but still cost an inspection; there is no break. -/
def apiScanStep (acc : ApiScanResult) (e : FEntry) : ApiScanResult :=
  match e.content with
  | some c =>
    { hasREST := acc.hasREST || containsSub c "GET" || containsSub c "POST" ||
        containsSub c "PUT" || containsSub c "DELETE"
      hasGraphQL := acc.hasGraphQL || containsSub c "graphql" || containsSub c "GraphQL" ||
        containsSub c "gql`"
      inspected := acc.inspected + 1 }
  | none => { acc with inspected := acc.inspected + 1 }

/-- The api-analyzer content loop over `apiFiles.slice(0, 20)`. -/
def apiScan (entries : List FEntry) : ApiScanResult :=
  (entries.take 20).foldl apiScanStep ⟨false, false, 0⟩

/-- Embedding of the try-block body of `generateAPISkills`
(api-analyzer.js lines 15-125); it errs exactly when the api-file glob
rejects (line 17, not guarded by an inner try). -/
def generateAPISkillsBody (fs : FSModel) (ts : TechStack) : Except String (List Skill) := do
  let apiFiles ← tryOp fs.apiFiles
  let scan := apiScan apiFiles
  let hasREST := scan.hasREST
  let hasGraphQL := scan.hasGraphQL ||
    (match fs.pkgDeps with
     | some deps => hasDep deps "apollo-server" || hasDep deps "graphql" ||
         hasDep deps "@apollo/server"
     | none => false)
  let apiGuidelines :=
    (if hasREST || !apiFiles.isEmpty then
      ["Use proper HTTP methods: GET for retrieval, POST for creation, PUT for updates, DELETE for removal",
       "Use RESTful URL patterns: /resources/:id for specific resources",
       "Return appropriate HTTP status codes: 200 OK, 201 Created, 400 Bad Request, 404 Not Found, 500 Server Error",
       "Implement proper error handling and return error responses consistently",
       "Use pagination for list endpoints",
       "Implement filtering, sorting, and searching capabilities",
       "Version APIs when making breaking changes",
       "Use proper Content-Type headers",
       "Implement rate limiting to prevent abuse",
       "Validate and sanitize all input data",
       "Use HTTPS in production",
       "Implement proper authentication and authorization",
       "Return consistent response formats",
       "Document APIs with OpenAPI/Swagger",
       "Use proper HTTP caching headers when appropriate"]
     else []) ++
    (if hasGraphQL then
      ["Design GraphQL schema thoughtfully",
       "Use DataLoader to prevent N+1 query problems",
       "Implement proper error handling in resolvers",
       "Use GraphQL fragments for reusable query parts",
       "Implement query complexity analysis",
       "Use subscriptions for real-time features",
       "Validate and sanitize resolver inputs",
       "Use GraphQL directives for authorization",
       "Implement proper pagination with connections pattern",
       "Document schema with descriptions",
       "Use GraphQL Playground or GraphiQL for development"]
     else []) ++
    ["Implement request validation",
     "Use proper error messages that are helpful but not revealing",
     "Implement logging for API requests and responses",
     "Use API keys or tokens for authentication",
     "Implement CORS properly",
     "Use compression (gzip/brotli) for responses",
     "Implement request timeouts",
     "Use proper content negotiation",
     "Implement health check endpoints",
     "Monitor API performance and errors",
     "Use API gateway patterns when appropriate",
     "Implement proper request/response logging",
     "Use idempotency keys for critical operations"]
  pure [{ name := "api-best-practices"
          displayName := "API Best Practices"
          description := "Guidelines for designing and implementing APIs"
          guidelines := apiGuidelines
          category := "api"
          techStack := ts.languages
          metadata := [("hasREST", toString hasREST),
                       ("hasGraphQL", toString hasGraphQL),
                       ("apiFilesCount", toString apiFiles.length)] }]

/-- Embedding of `generateAPISkills` (api-analyzer.js lines 8-131): the
whole body sits in a try whose catch only logs, after which the local
`skills` array (empty when the body threw before its single push) is
returned — so the function never rejects. -/
def generateAPISkills (fs : FSModel) (ts : TechStack) : Except String (List Skill) :=
  .ok (match generateAPISkillsBody fs ts with
       | .ok skills => skills
       | .error _ => [])

/-- The performance-analyzer async-pattern loop (performance-analyzer.js
lines 34-45) on an already-truncated list: unlike the other content loops
it breaks at the first file containing a marker.  Returns the flag and the
number of files inspected. -/
def perfScanGo : List FEntry → Bool × Nat
  | [] => (false, 0)
  | e :: rest =>
    match e.content with
    | some c =>
      if containsSub c "async" || containsSub c "await" || containsSub c "Promise" then
        (true, 1)
      else
        ((perfScanGo rest).1, (perfScanGo rest).2 + 1)
    | none => ((perfScanGo rest).1, (perfScanGo rest).2 + 1)

/-- The performance-analyzer async-pattern scan over
`asyncFiles.slice(0, 20)`. -/
def perfAsyncScan (entries : List FEntry) : Bool × Nat :=
  perfScanGo (entries.take 20)

/-- Embedding of the try-block body of `generatePerformanceSkills`
(performance-analyzer.js lines 15-128); errs when any of its three globs
rejects. -/
def generatePerformanceSkillsBody (fs : FSModel) (ts : TechStack) : Except String (List Skill) := do
  let dbFiles ← tryOp fs.dbFiles
  let cacheFiles ← tryOp fs.cacheFiles
  let asyncFiles ← tryOp fs.asyncFiles
  let hasAsyncPatterns := (perfAsyncScan asyncFiles).1
  let performanceGuidelines :=
    ["Optimize database queries: use indexes, avoid N+1 queries, use pagination",
     "Implement caching for frequently accessed data",
     "Use lazy loading for images and heavy resources",
     "Minimize bundle size: code splitting, tree shaking, dynamic imports",
     "Optimize API responses: pagination, filtering, field selection",
     "Use debouncing and throttling for user input handlers",
     "Implement proper error boundaries to prevent full app crashes",
     "Profile and measure before optimizing"] ++
    (if ts.hasNode then
      ["Use async/await or Promises for I/O operations, never block the event loop",
       "Implement connection pooling for database connections",
       "Use streaming for large file operations",
       "Enable gzip/brotli compression for HTTP responses",
       "Use worker threads for CPU-intensive tasks",
       "Implement request queuing for rate-limited APIs"]
     else []) ++
    (if ts.hasReact then
      ["Use React.memo() for expensive components",
       "Implement code splitting with React.lazy() and Suspense",
       "Avoid unnecessary re-renders: use useMemo() and useCallback()",
       "Virtualize long lists with react-window or react-virtualized",
       "Optimize images: use next/image, WebP format, lazy loading",
       "Use production builds with optimizations enabled",
       "Profile with React DevTools Profiler"]
     else []) ++
    (if ts.hasTypeScript then
      ["Use TypeScript for better tree-shaking and dead code elimination",
       "Avoid any types that prevent optimizations"]
     else []) ++
    (if !dbFiles.isEmpty then
      ["Use database indexes on frequently queried columns",
       "Implement query result caching",
       "Use database connection pooling",
       "Avoid SELECT * - only fetch needed columns",
       "Use batch operations instead of individual queries",
       "Implement database query logging and monitoring"]
     else []) ++
    (if !cacheFiles.isEmpty || ts.databases.contains "Redis" then
      ["Cache expensive computations and API responses",
       "Set appropriate cache expiration times",
       "Use cache invalidation strategies",
       "Implement cache warming for critical data"]
     else []) ++
    (if hasAsyncPatterns then
      ["Use Promise.all() for parallel async operations when possible",
       "Avoid sequential await calls when operations are independent",
       "Handle errors properly in async code to prevent unhandled rejections"]
     else [])
  pure [{ name := "performance-optimization"
          displayName := "Performance Optimization"
          description := "Guidelines for writing performant code based on codebase patterns"
          guidelines := performanceGuidelines
          category := "performance"
          techStack := ts.languages
          metadata := [] }]

/-- Embedding of `generatePerformanceSkills` (performance-analyzer.js
lines 8-135): try-body plus the catch that only logs and falls through to
`return skills`. -/
def generatePerformanceSkills (fs : FSModel) (ts : TechStack) : Except String (List Skill) :=
  .ok (match generatePerformanceSkillsBody fs ts with
       | .ok skills => skills
       | .error _ => [])

/-- Embedding of the try-block body of `generateTestingSkills`
(testing-analyzer.js lines 15-209); errs exactly when the test-file glob
rejects (line 17).  `usesJUnit` is declared in the source but never set,
so it stays false. -/
def generateTestingSkillsBody (fs : FSModel) (ts : TechStack) : Except String (List Skill) := do
  let testFiles ← tryOp fs.testFiles
  let usesJest := fs.pkgDeps.elim false (fun deps => hasDep deps "jest")
  let usesVitest := fs.pkgDeps.elim false (fun deps => hasDep deps "vitest")
  let usesMocha := fs.pkgDeps.elim false (fun deps => hasDep deps "mocha")
  let usesPytest := fs.reqContent.elim false (fun req => containsSub req "pytest")
  let usesJUnit := false
  let usesReactTestingLibrary := fs.pkgDeps.elim false (fun deps => hasDep deps "@testing-library/react")
  let usesCypress := fs.pkgDeps.elim false (fun deps => hasDep deps "cypress")
  let usesPlaywright := fs.pkgDeps.elim false (fun deps => hasDep deps "@playwright/test")
  let testingGuidelines :=
    ["Write tests that are independent and can run in any order",
     "Use descriptive test names that explain what is being tested",
     "Follow AAA pattern: Arrange, Act, Assert",
     "Test behavior, not implementation",
     "Keep tests simple and focused on one thing",
     "Use mocks and stubs for external dependencies",
     "Test edge cases and error conditions",
     "Maintain good test coverage but focus on critical paths",
     "Keep tests fast and reliable",
     "Refactor tests when code changes"] ++
    (if ts.hasNode then
      (if usesJest then
        ["Use Jest for unit and integration tests",
         "Use describe blocks to group related tests",
         "Use beforeEach/afterEach for test setup and cleanup",
         "Mock external dependencies with jest.mock()",
         "Use snapshot tests sparingly for UI components",
         "Use test.each for parameterized tests",
         "Configure Jest coverage thresholds",
         "Use async/await in tests for async code"]
       else []) ++
      (if usesVitest then
        ["Use Vitest for fast unit tests",
         "Leverage Vitest ESM support",
         "Use Vitest UI for better test debugging",
         "Configure Vitest for your project structure"]
       else []) ++
      (if usesMocha then
        ["Use Mocha with Chai for assertions",
         "Use beforeEach/afterEach hooks for setup",
         "Organize tests with describe blocks"]
       else []) ++
      (if usesReactTestingLibrary && ts.hasReact then
        ["Use React Testing Library for component tests",
         "Test user interactions, not implementation details",
         "Use accessible queries (getByRole, getByLabelText)",
         "Avoid using data-testid unless necessary",
         "Use screen queries for better error messages",
         "Test accessibility as part of component tests",
         "Use userEvent for simulating user interactions",
         "Mock external API calls in tests"]
       else []) ++
      (if usesCypress then
        ["Use Cypress for end-to-end testing",
         "Write tests from user perspective",
         "Use data-cy attributes for stable selectors",
         "Avoid testing implementation details",
         "Use custom commands for reusable actions",
         "Test critical user flows",
         "Use fixtures for test data"]
       else []) ++
      (if usesPlaywright then
        ["Use Playwright for cross-browser testing",
         "Write tests that work across browsers",
         "Use page object model for maintainability",
         "Test accessibility with Playwright",
         "Use Playwright auto-waiting features",
         "Test on multiple viewport sizes"]
       else [])
     else []) ++
    (if ts.hasPython then
      (if usesPytest then
        ["Use pytest for Python testing",
         "Use fixtures for test setup and dependencies",
         "Use parametrize for testing multiple inputs",
         "Use pytest markers for test organization",
         "Use pytest fixtures for dependency injection",
         "Follow pytest naming conventions",
         "Use pytest plugins for additional functionality"]
       else []) ++
      ["Use unittest.mock for mocking",
       "Test both success and failure cases",
       "Use pytest-cov for coverage reporting"]
     else []) ++
    (if ts.hasJava then
      (if usesJUnit then
        ["Use JUnit for unit testing",
         "Use @BeforeEach and @AfterEach for setup",
         "Use assertions from AssertJ or Hamcrest",
         "Use @ParameterizedTest for multiple test cases",
         "Follow JUnit 5 best practices"]
       else [])
     else []) ++
    ["Organize tests to mirror source code structure",
     "Keep test files close to source files",
     "Use test utilities and helpers for common patterns",
     "Document complex test scenarios",
     "Review and refactor tests regularly"]
  pure [{ name := "testing-best-practices"
          displayName := "Testing Best Practices"
          description := "Guidelines for writing effective tests based on detected testing frameworks"
          guidelines := testingGuidelines
          category := "testing"
          techStack := ts.languages
          metadata := [("testFilesCount", toString testFiles.length),
                       ("frameworks", String.intercalate ", "
                         (condList usesJest "Jest" ++
                          condList usesVitest "Vitest" ++
                          condList usesMocha "Mocha" ++
                          condList usesPytest "pytest" ++
                          condList usesJUnit "JUnit" ++
                          condList usesReactTestingLibrary "React Testing Library" ++
                          condList usesCypress "Cypress" ++
                          condList usesPlaywright "Playwright"))] }]

/-- Embedding of `generateTestingSkills` (testing-analyzer.js lines 8-215):
try-body plus log-only catch, then `return skills`. -/
def generateTestingSkills (fs : FSModel) (ts : TechStack) : Except String (List Skill) :=
  .ok (match generateTestingSkillsBody fs ts with
       | .ok skills => skills
       | .error _ => [])

/-- Flags gathered by the react-analyzer hooks loop (react-analyzer.js,
second module of testing-analyzer.js, lines 243-260) plus the number of
candidate files the loop inspected. -/
structure ReactScanResult where
  usesState : Bool
  usesEffect : Bool
  usesContext : Bool
  usesHooks : Bool
  usesCustomHooks : Bool
  inspected : Nat
deriving DecidableEq, Repr

/-- One iteration of the react hooks loop; no break: every file of the
capped slice is read even after all flags are already true. -/
def reactScanStep (acc : ReactScanResult) (e : FEntry) : ReactScanResult :=
  match e.content with
  | some c =>
    { usesState := acc.usesState || containsSub c "useState"
      usesEffect := acc.usesEffect || containsSub c "useEffect"
      usesContext := acc.usesContext || containsSub c "useContext" || containsSub c "Context"
      usesHooks := acc.usesHooks || (containsSub c "use" && containsSub c "const")
      usesCustomHooks := acc.usesCustomHooks || containsSub c "function use" || containsSub c "const use"
      inspected := acc.inspected + 1 }
  | none => { acc with inspected := acc.inspected + 1 }

/-- The react hooks loop over `reactFiles.slice(0, 30)`. -/
def reactHooksScan (entries : List FEntry) : ReactScanResult :=
  (entries.take 30).foldl reactScanStep ⟨false, false, false, false, false, 0⟩

/-- Flags of the react state-management loop (lines 268-281) plus its
inspection count. -/
structure StateScanResult where
  usesRedux : Bool
  usesZustand : Bool
  usesMobX : Bool
  inspected : Nat
deriving DecidableEq, Repr

/-- One iteration of the state-management loop; again no break. -/
def stateScanStep (acc : StateScanResult) (e : FEntry) : StateScanResult :=
  match e.content with
  | some c =>
    { usesRedux := acc.usesRedux || containsSub c "redux" || containsSub c "createSlice"
      usesZustand := acc.usesZustand || containsSub c "zustand" || containsSub c "create("
      usesMobX := acc.usesMobX || containsSub c "mobx" || containsSub c "observable"
      inspected := acc.inspected + 1 }
  | none => { acc with inspected := acc.inspected + 1 }

/-- The state-management loop over `stateFiles.slice(0, 10)`. -/
def stateScan (entries : List FEntry) : StateScanResult :=
  (entries.take 10).foldl stateScanStep ⟨false, false, false, 0⟩

/-- Embedding of the try-block body of `generateReactSkills`
(react-analyzer.js lines 235-399); errs when either of its globs
rejects. -/
def generateReactSkillsBody (fs : FSModel) (ts : TechStack) : Except String (List Skill) := do
  let reactFiles ← tryOp fs.reactFiles
  let hooks := reactHooksScan reactFiles
  let stateFiles ← tryOp fs.stateFiles
  let state := stateScan stateFiles
  let isNextJS := ts.frameworks.contains "Next.js"
  let reactGuidelines :=
    ["Use functional components with hooks instead of class components",
     "Keep components small and focused on a single responsibility",
     "Extract reusable logic into custom hooks",
     "Use proper key props for list items",
     "Avoid creating functions and objects inside render methods",
     "Use TypeScript for type safety in React components"] ++
    (if hooks.usesState then
      ["Lift state up when multiple components need the same data",
       "Use useState for local component state",
       "Consider useReducer for complex state logic",
       "Avoid prop drilling - use Context or state management library"]
     else []) ++
    (if hooks.usesEffect then
      ["Always include dependencies in useEffect dependency array",
       "Clean up subscriptions and timers in useEffect cleanup function",
       "Use multiple useEffect hooks to separate concerns",
       "Avoid side effects in render - use useEffect",
       "Be careful with infinite loops in useEffect"]
     else []) ++
    (if hooks.usesContext then
      ["Split contexts by concern to avoid unnecessary re-renders",
       "Use Context for theme, auth, or app-wide state",
       "Consider performance implications of Context value changes"]
     else []) ++
    (if hooks.usesCustomHooks then
      ["Extract component logic into custom hooks for reusability",
       "Custom hooks should start with use prefix",
       "Return values and functions from custom hooks consistently"]
     else []) ++
    (if state.usesRedux then
      ["Use Redux Toolkit for modern Redux patterns",
       "Keep reducers pure and side-effect free",
       "Use createSlice for simpler reducer logic",
       "Use RTK Query for data fetching when appropriate",
       "Select only needed data from Redux store"]
     else []) ++
    (if state.usesZustand then
      ["Use Zustand for simpler state management needs",
       "Keep stores focused and split by domain",
       "Use selectors to prevent unnecessary re-renders"]
     else []) ++
    (if isNextJS then
      ["Use Next.js App Router for new projects",
       "Use Server Components by default, Client Components when needed",
       "Use next/image for optimized images",
       "Implement proper SEO with metadata API",
       "Use next/link for client-side navigation",
       "Leverage ISR (Incremental Static Regeneration) for dynamic content",
       "Use API routes for backend functionality",
       "Implement proper error boundaries and error pages"]
     else []) ++
    ["Use React.memo() for components that render frequently with same props",
     "Use useMemo() for expensive computations",
     "Use useCallback() for functions passed as props",
     "Implement code splitting with React.lazy()",
     "Virtualize long lists",
     "Optimize re-renders with React DevTools Profiler"] ++
    ["Write tests for components using React Testing Library",
     "Test user interactions, not implementation details",
     "Use data-testid sparingly, prefer accessible queries"]
  pure [{ name := "react-best-practices"
          displayName := "React Best Practices"
          description := "Guidelines for writing high-quality React code based on codebase patterns"
          guidelines := reactGuidelines
          category := "react"
          techStack := ["JavaScript", "TypeScript"]
          metadata := [("usesHooks", toString hooks.usesHooks),
                       ("usesContext", toString hooks.usesContext),
                       ("usesState", toString hooks.usesState),
                       ("usesEffect", toString hooks.usesEffect),
                       ("usesCustomHooks", toString hooks.usesCustomHooks),
                       ("stateManagement",
                         if state.usesRedux then "Redux"
                         else if state.usesZustand then "Zustand"
                         else if state.usesMobX then "MobX"
                         else "Context/State"),
                       ("framework", if isNextJS then "Next.js" else "React")] }]

/-- Embedding of `generateReactSkills` (react-analyzer.js lines 223-406):
the hard guard `if (!techStack.hasReact) return skills` sits before the
try block; the try-body's failures are caught by a log-only catch, after
which the local `skills` array is returned. -/
def generateReactSkills (fs : FSModel) (ts : TechStack) : Except String (List Skill) :=
  .ok (if !ts.hasReact then []
       else
         match generateReactSkillsBody fs ts with
         | .ok skills => skills
         | .error _ => [])

/-- Embedding of the try-block body of `generateBackendSkills`
(backend-analyzer.js lines 15-184).  The body itself returns early with
the empty `skills` array when no backend files matched (lines 22-25). -/
def generateBackendSkillsBody (fs : FSModel) (ts : TechStack) : Except String (List Skill) := do
  let backendFiles ← tryOp fs.backendFiles
  if backendFiles.isEmpty then
    pure []
  else do
  let apiFiles ← tryOp fs.backendApiFiles
  let middlewareFiles ← tryOp fs.middlewareFiles
  let backendGuidelines :=
    (if ts.hasNode && ts.frameworks.any
        (fun f => f == "Express" || f == "NestJS" || f == "Fastify" || f == "Koa") then
      ["Use async/await for all async operations",
       "Implement proper error handling middleware",
       "Validate request data using libraries like Joi or Zod",
       "Use environment variables for configuration",
       "Implement request logging and monitoring",
       "Use helmet.js for security headers",
       "Implement rate limiting on API endpoints",
       "Use compression middleware for responses",
       "Structure routes logically and use route modules",
       "Implement proper CORS configuration"] ++
      (if ts.frameworks.contains "Express" then
        ["Use Express Router for organizing routes",
         "Separate route handlers from business logic",
         "Use middleware for cross-cutting concerns",
         "Implement proper error handling with error middleware"]
       else []) ++
      (if ts.frameworks.contains "NestJS" then
        ["Use dependency injection with NestJS",
         "Organize code into modules, controllers, and services",
         "Use DTOs for data validation",
         "Implement guards for authentication and authorization",
         "Use interceptors for cross-cutting concerns",
         "Leverage NestJS decorators for clean code"]
       else [])
     else []) ++
    (if ts.hasPython then
      ["Use type hints for better code quality",
       "Implement proper exception handling",
       "Use virtual environments for dependency management",
       "Follow PEP 8 style guidelines",
       "Use async/await for I/O operations when using async frameworks"] ++
      (if ts.frameworks.contains "Django" then
        ["Use Django REST Framework for APIs",
         "Follow Django best practices: apps, models, views",
         "Use Django middleware for cross-cutting concerns",
         "Implement proper model relationships and migrations",
         "Use Django signals sparingly",
         "Optimize database queries with select_related and prefetch_related"]
       else []) ++
      (if ts.frameworks.contains "Flask" then
        ["Use Flask-RESTful or Flask-RESTX for APIs",
         "Organize code into blueprints",
         "Use Flask extensions for common functionality",
         "Implement proper error handling",
         "Use Flask-SQLAlchemy for database operations"]
       else []) ++
      (if ts.frameworks.contains "FastAPI" then
        ["Use Pydantic models for request/response validation",
         "Leverage FastAPI dependency injection",
         "Use async endpoints for I/O-bound operations",
         "Implement proper OpenAPI documentation",
         "Use background tasks for long-running operations"]
       else [])
     else []) ++
    (if ts.hasJava then
      ["Follow Spring Boot best practices",
       "Use dependency injection with Spring",
       "Implement proper exception handling with @ControllerAdvice",
       "Use DTOs for API contracts",
       "Implement proper logging with SLF4J",
       "Use Spring Data JPA for database operations",
       "Follow RESTful API design principles"]
     else []) ++
    (if ts.hasGo then
      ["Follow Go idioms and conventions",
       "Use interfaces for abstraction",
       "Implement proper error handling (return errors, do not panic)",
       "Use context.Context for cancellation and timeouts",
       "Organize code into packages logically",
       "Use go routines and channels appropriately",
       "Implement proper logging",
       "Use dependency injection patterns"]
     else []) ++
    ["Implement proper authentication and authorization",
     "Use HTTPS in production",
     "Implement request validation and sanitization",
     "Use connection pooling for database connections",
     "Implement proper logging and monitoring",
     "Handle errors gracefully and return appropriate HTTP status codes",
     "Use environment-specific configuration",
     "Implement health check endpoints",
     "Document APIs with OpenAPI/Swagger",
     "Use proper HTTP status codes",
     "Implement pagination for list endpoints",
     "Use versioning for APIs when needed"] ++
    (if !middlewareFiles.isEmpty then
      ["Use middleware for authentication, logging, error handling",
       "Order middleware correctly (auth before routes)",
       "Keep middleware focused and reusable"]
     else [])
  pure [{ name := "backend-best-practices"
          displayName := "Backend Best Practices"
          description := "Guidelines for writing high-quality backend code based on detected frameworks"
          guidelines := backendGuidelines
          category := "backend"
          techStack := ts.languages.filter
            (fun l => l == "JavaScript" || l == "TypeScript" || l == "Python" ||
                      l == "Java" || l == "Go")
          metadata := [("frameworks", String.intercalate ", " ts.frameworks),
                       ("hasMiddleware", toString (!middlewareFiles.isEmpty)),
                       ("apiFiles", toString apiFiles.length)] }]

/-- Embedding of `generateBackendSkills` (backend-analyzer.js lines 8-191):
try-body plus log-only catch, then `return skills`. -/
def generateBackendSkills (fs : FSModel) (ts : TechStack) : Except String (List Skill) :=
  .ok (match generateBackendSkillsBody fs ts with
       | .ok skills => skills
       | .error _ => [])

/-- Embedding of the try-block body of `generateFrontendSkills`
(frontend-analyzer.js lines 190-345, second module of
database-analyzer.js); errs when either glob rejects.  `package.json` is
read twice in the source; both reads see the same file, hence the same
`pkgDeps`. -/
def generateFrontendSkillsBody (fs : FSModel) (ts : TechStack) : Except String (List Skill) := do
  let _frontendFiles ← tryOp fs.frontendFiles
  let _cssFiles ← tryOp fs.cssFiles
  let usesTailwind := fs.pkgDeps.elim false (fun deps => hasDep deps "tailwindcss")
  let usesStyledComponents := fs.pkgDeps.elim false (fun deps => hasDep deps "styled-components")
  let usesCSSModules := fs.pkgDeps.elim false (fun deps => hasDep deps "css-modules")
  let usesMaterialUI := fs.pkgDeps.elim false
    (fun deps => hasDep deps "@mui/material" || hasDep deps "@material-ui/core")
  let usesChakraUI := fs.pkgDeps.elim false (fun deps => hasDep deps "@chakra-ui/react")
  let usesAntDesign := fs.pkgDeps.elim false (fun deps => hasDep deps "antd")
  let frontendGuidelines :=
    ["Write semantic HTML",
     "Ensure accessibility (a11y): proper ARIA labels, keyboard navigation",
     "Optimize images: use appropriate formats (WebP, AVIF), lazy loading",
     "Implement responsive design (mobile-first approach)",
     "Use CSS variables for theming",
     "Minimize layout shifts (CLS)",
     "Optimize font loading",
     "Implement proper error boundaries"] ++
    (if ts.hasTypeScript then
      ["Use TypeScript for type safety",
       "Define proper interfaces for props and data structures",
       "Avoid using any type",
       "Use strict mode for better type checking"]
     else []) ++
    (if usesTailwind then
      ["Use Tailwind utility classes for styling",
       "Extract repeated patterns into components",
       "Use Tailwind plugins for custom utilities",
       "Configure Tailwind theme for design system consistency",
       "Use @apply sparingly, prefer utility classes"]
     else []) ++
    (if usesStyledComponents then
      ["Use styled-components for component-scoped styling",
       "Extract styled components into separate files for reusability",
       "Use theme provider for consistent theming",
       "Avoid inline styles, use styled components",
       "Use CSS-in-JS best practices for performance"]
     else []) ++
    (if usesCSSModules then
      ["Use CSS Modules for scoped styling",
       "Follow BEM naming convention when appropriate",
       "Keep CSS modules co-located with components"]
     else []) ++
    (if usesMaterialUI then
      ["Use Material-UI components consistently",
       "Customize theme using MUI theme provider",
       "Follow Material Design principles",
       "Use MUI Grid system for layouts"]
     else []) ++
    (if usesChakraUI then
      ["Use Chakra UI components and hooks",
       "Customize theme through ChakraProvider",
       "Use Chakra responsive props for mobile-first design"]
     else []) ++
    (if usesAntDesign then
      ["Use Ant Design components consistently",
       "Customize theme through ConfigProvider",
       "Follow Ant Design design principles"]
     else []) ++
    ["Implement code splitting for routes",
     "Lazy load components and routes",
     "Optimize bundle size with tree shaking",
     "Use dynamic imports for heavy libraries",
     "Implement virtual scrolling for long lists",
     "Debounce/throttle user input handlers",
     "Use Web Workers for heavy computations"] ++
    ["Write unit tests for components",
     "Test user interactions, not implementation",
     "Use accessibility testing tools",
     "Test responsive design at different breakpoints"]
  pure [{ name := "frontend-best-practices"
          displayName := "Frontend Best Practices"
          description := "Guidelines for writing high-quality frontend code"
          guidelines := frontendGuidelines
          category := "frontend"
          techStack := ts.languages
          metadata := [("cssFramework",
                         if usesTailwind then "Tailwind"
                         else if usesStyledComponents then "Styled Components"
                         else if usesCSSModules then "CSS Modules"
                         else "Standard CSS"),
                       ("componentLibrary",
                         if usesMaterialUI then "Material-UI"
                         else if usesChakraUI then "Chakra UI"
                         else if usesAntDesign then "Ant Design"
                         else "None")] }]

/-- Embedding of `generateFrontendSkills` (frontend-analyzer.js lines
183-352): try-body plus log-only catch, then `return skills`. -/
def generateFrontendSkills (fs : FSModel) (ts : TechStack) : Except String (List Skill) :=
  .ok (match generateFrontendSkillsBody fs ts with
       | .ok skills => skills
       | .error _ => [])

/-- Embedding of the try-block body of `generateDatabaseSkills`
(database-analyzer.js lines 20-168); errs when the db-file glob
rejects. -/
def generateDatabaseSkillsBody (fs : FSModel) (ts : TechStack) : Except String (List Skill) := do
  let dbFiles ← tryOp fs.databaseFiles
  let usesMongoose := fs.pkgDeps.elim false (fun deps => hasDep deps "mongoose")
  let usesSequelize := fs.pkgDeps.elim false (fun deps => hasDep deps "sequelize")
  let usesTypeORM := fs.pkgDeps.elim false (fun deps => hasDep deps "typeorm")
  let usesPrisma := fs.pkgDeps.elim false (fun deps => hasDep deps "@prisma/client")
  let usesSQLAlchemy := fs.reqContent.elim false (fun req => containsSub req "sqlalchemy")
  let databaseGuidelines :=
    (if ts.databases.contains "MongoDB" || usesMongoose then
      ["Use Mongoose for MongoDB operations in Node.js",
       "Define schemas with proper validation",
       "Use indexes for frequently queried fields",
       "Implement proper error handling for database operations",
       "Use transactions for multi-document operations",
       "Avoid deep nesting in documents",
       "Use aggregation pipeline for complex queries",
       "Implement proper connection handling and pooling"]
     else []) ++
    (if ts.databases.any (fun db => db == "SQL" || db == "PostgreSQL" || db == "MySQL") then
      ["Use parameterized queries to prevent SQL injection",
       "Create indexes on frequently queried columns",
       "Use transactions for multi-step operations",
       "Implement proper connection pooling",
       "Use database migrations for schema changes",
       "Avoid N+1 query problems",
       "Use EXPLAIN to analyze query performance",
       "Normalize database schema appropriately"] ++
      (if usesPrisma then
        ["Use Prisma Client for type-safe database access",
         "Define schema in schema.prisma file",
         "Use Prisma migrations for schema changes",
         "Leverage Prisma relations for data relationships",
         "Use Prisma Studio for database inspection",
         "Generate Prisma Client after schema changes"]
       else []) ++
      (if usesSequelize then
        ["Define models with Sequelize",
         "Use migrations for schema changes",
         "Use Sequelize associations for relationships",
         "Implement proper error handling",
         "Use transactions for complex operations"]
       else []) ++
      (if usesTypeORM then
        ["Use TypeORM decorators for entity definitions",
         "Use migrations for schema changes",
         "Leverage TypeORM relations",
         "Use repositories for data access",
         "Implement proper transaction handling"]
       else []) ++
      (if usesSQLAlchemy then
        ["Use SQLAlchemy ORM for database operations",
         "Define models with SQLAlchemy",
         "Use Alembic for migrations",
         "Implement proper session management",
         "Use SQLAlchemy relationships for associations"]
       else [])
     else []) ++
    (if ts.databases.contains "Redis" then
      ["Use Redis for caching and session storage",
       "Set appropriate expiration times for cached data",
       "Use Redis pub/sub for real-time features",
       "Implement cache invalidation strategies",
       "Use Redis pipelines for batch operations",
       "Monitor Redis memory usage"]
     else []) ++
    ["Always handle database errors gracefully",
     "Use connection pooling for better performance",
     "Implement proper logging for database operations",
     "Use database transactions for data consistency",
     "Backup databases regularly",
     "Monitor database performance and slow queries",
     "Use database indexes strategically",
     "Avoid storing sensitive data in plain text",
     "Implement proper data validation at the database level",
     "Use database constraints for data integrity"]
  pure [{ name := "database-best-practices"
          displayName := "Database Best Practices"
          description := "Guidelines for working with databases based on detected database technologies"
          guidelines := databaseGuidelines
          category := "database"
          techStack := ts.languages
          metadata := [("databases", String.intercalate ", " ts.databases),
                       ("dbFilesCount", toString dbFiles.length),
                       ("orm",
                         if usesPrisma then "Prisma"
                         else if usesMongoose then "Mongoose"
                         else if usesSequelize then "Sequelize"
                         else if usesTypeORM then "TypeORM"
                         else if usesSQLAlchemy then "SQLAlchemy"
                         else "None")] }]

/-- Embedding of `generateDatabaseSkills` (database-analyzer.js lines
8-175): the hard guard `if (techStack.databases.length === 0) return
skills` sits before the try block; the try-body's failures are caught by
a log-only catch, after which the local `skills` array is returned. -/
def generateDatabaseSkills (fs : FSModel) (ts : TechStack) : Except String (List Skill) :=
  .ok (if ts.databases.isEmpty then []
       else
         match generateDatabaseSkillsBody fs ts with
         | .ok skills => skills
         | .error _ => [])

/-- Embedding of the try-block body of `generateDevOpsSkills`
(devops-analyzer.js lines 15-190); errs when any of its five globs
rejects. -/
def generateDevOpsSkillsBody (fs : FSModel) (ts : TechStack) : Except String (List Skill) := do
  let cicdFiles ← tryOp fs.cicdFiles
  let hasGitHubActions := !cicdFiles.isEmpty
  let hasDocker := fs.hasDockerfile
  let hasDockerCompose := fs.hasDockerComposeYml || fs.hasDockerComposeYaml
  let k8sFiles ← tryOp fs.k8sFiles
  let hasK8s := !k8sFiles.isEmpty
  let iacFiles ← tryOp fs.iacFiles
  let hasTerraform := !iacFiles.isEmpty
  let envFiles ← tryOp fs.envFiles
  let hasEnvFiles := !envFiles.isEmpty
  let devopsGuidelines :=
    ["Use version control for all code and configuration",
     "Implement proper branching strategies (GitFlow, GitHub Flow)",
     "Use semantic versioning for releases",
     "Keep dependencies updated and secure",
     "Use environment variables for configuration",
     "Never commit secrets or credentials",
     "Implement proper logging and monitoring",
     "Use infrastructure as code when possible",
     "Automate deployment processes",
     "Implement proper backup and disaster recovery"] ++
    (if hasGitHubActions then
      ["Use GitHub Actions for CI/CD pipelines",
       "Organize workflows into reusable actions",
       "Use matrix builds for testing multiple versions",
       "Cache dependencies to speed up builds",
       "Run tests before deployment",
       "Use environment secrets for sensitive data",
       "Implement proper workflow permissions",
       "Use conditionals and job dependencies effectively"]
     else []) ++
    ["Run tests in CI pipeline",
     "Lint and format code in CI",
     "Build and test on multiple platforms when needed",
     "Use deployment pipelines for different environments",
     "Implement proper rollback strategies",
     "Notify team of deployment status"] ++
    (if hasDocker then
      ["Use multi-stage builds to reduce image size",
       "Use .dockerignore to exclude unnecessary files",
       "Use specific version tags, avoid latest",
       "Run containers as non-root user",
       "Minimize number of layers in Dockerfile",
       "Use health checks in Dockerfiles",
       "Optimize Dockerfile for caching",
       "Scan images for vulnerabilities"]
     else []) ++
    (if hasDockerCompose then
      ["Use docker-compose for local development",
       "Define services and dependencies clearly",
       "Use environment files for configuration",
       "Use volumes for persistent data",
       "Define networks for service communication"]
     else []) ++
    (if hasK8s then
      ["Use Kubernetes for container orchestration",
       "Define resources (CPU, memory) for pods",
       "Use ConfigMaps and Secrets for configuration",
       "Implement proper health checks (liveness, readiness)",
       "Use namespaces for environment separation",
       "Implement proper resource quotas",
       "Use HorizontalPodAutoscaler for scaling",
       "Implement proper service discovery",
       "Use Ingress for external access",
       "Monitor and log Kubernetes resources"]
     else []) ++
    (if hasTerraform then
      ["Use Terraform for infrastructure provisioning",
       "Organize Terraform code into modules",
       "Use remote state for team collaboration",
       "Version Terraform state files",
       "Use variables and outputs effectively",
       "Implement proper resource tagging",
       "Use Terraform workspaces for environments",
       "Review Terraform plans before applying"]
     else []) ++
    (if hasEnvFiles then
      ["Use .env.example as a template",
       "Never commit .env files",
       "Use different configurations for different environments",
       "Use secret management services in production",
       "Rotate secrets regularly",
       "Document required environment variables"]
     else []) ++
    (if !ts.cloudProviders.isEmpty then
      ["Configure for cloud providers: " ++ String.intercalate ", " ts.cloudProviders,
       "Use cloud-native services when appropriate",
       "Implement proper IAM and security policies",
       "Use cloud monitoring and logging services",
       "Implement auto-scaling when needed",
       "Use CDN for static assets",
       "Implement proper backup strategies"]
     else [])
  pure [{ name := "devops-best-practices"
          displayName := "DevOps Best Practices"
          description := "Guidelines for DevOps and deployment based on detected infrastructure"
          guidelines := devopsGuidelines
          category := "devops"
          techStack := ts.languages
          metadata := [("hasDocker", toString hasDocker),
                       ("hasDockerCompose", toString hasDockerCompose),
                       ("hasK8s", toString hasK8s),
                       ("hasTerraform", toString hasTerraform),
                       ("hasGitHubActions", toString hasGitHubActions),
                       ("cloudProviders", String.intercalate ", " ts.cloudProviders)] }]

/-- Embedding of `generateDevOpsSkills` (devops-analyzer.js lines 8-197):
try-body plus log-only catch, then `return skills`.  Note that the
general guideline pushes are unconditional: even with no CI/CD, Docker,
Kubernetes, Terraform, env-file or cloud evidence the body pushes one
devops skill. -/
def generateDevOpsSkills (fs : FSModel) (ts : TechStack) : Except String (List Skill) :=
  .ok (match generateDevOpsSkillsBody fs ts with
       | .ok skills => skills
       | .error _ => [])

/-- Modelled from the spec: `security-analyzer.js` (the Security Analyzer
registered first in generate-skills.js) is not under src/.  Per spec
section 4.3 and section 7 and the command document it probes the
workspace read-only for security patterns, reduces recoverable probe
failures to absent evidence, and emits one security skill from
deterministic guideline selection; its body is wrapped like its sibling
analyzers, so a body failure yields the accumulated (empty) skill
list. -/
def generateSecuritySkillsBody (fs : FSModel) (ts : TechStack) : Except String (List Skill) := do
  let files ← tryOp fs.securityFiles
  pure [{ name := "security-best-practices"
          displayName := "Security Best Practices"
          description := "Guidelines for secure coding based on detected security patterns"
          guidelines :=
            ["Validate and sanitize all input data",
             "Never commit secrets or credentials",
             "Use HTTPS in production",
             "Implement proper authentication and authorization"]
          category := "security"
          techStack := ts.languages
          metadata := [("securityFilesCount", toString files.length)] }]

/-- Modelled from the spec: outer wrapper of the Security Analyzer,
mirroring the try/log-catch/`return skills` shape that spec section 4.3
mandates and every analyzer under src/ exhibits. -/
def generateSecuritySkills (fs : FSModel) (ts : TechStack) : Except String (List Skill) :=
  .ok (match generateSecuritySkillsBody fs ts with
       | .ok skills => skills
       | .error _ => [])

/-- The value returned by the per-agent wrapper in `main`
(generate-skills.js lines 92-102): name, skills, success flag, and the
error message when the task threw. -/
structure AgentResult where
  name : String
  skills : List Skill
  success : Bool
  error : Option String
deriving DecidableEq, Repr

/-- Embedding of the per-agent wrapper (generate-skills.js lines 92-102):
it awaits the task and catches any throw, so it always returns a value —
success with the task's skills, or failure with the error message. -/
def runAgent (name : String) (task : Except String (List Skill)) : AgentResult :=
  match task with
  | .ok skills => { name := name, skills := skills, success := true, error := none }
  | .error e => { name := name, skills := [], success := false, error := some e }

/-- A settled promise as `Promise.allSettled` reports it. -/
inductive Settled (α : Type) where
  | fulfilled (value : α)
  | rejected (reason : String)
deriving DecidableEq, Repr

/-- A summary entry pushed by the aggregation loop
(generate-skills.js lines 109-130). -/
structure SummaryEntry where
  agent : String
  skillsGenerated : Nat
  status : String
  error : Option String
deriving DecidableEq, Repr

/-- Embedding of the aggregation loop (generate-skills.js lines 106-130)
over the settled results in input order: a fulfilled successful result
contributes its skills and a success entry; anything else contributes a
failed entry, named `Unknown` when the promise itself was rejected. -/
def collectResults : List (Settled AgentResult) → List Skill × List SummaryEntry
  | [] => ([], [])
  | r :: rest =>
    match r with
    | .fulfilled v =>
      if v.success then
        (v.skills ++ (collectResults rest).1,
         { agent := v.name, skillsGenerated := v.skills.length,
           status := "success", error := none } :: (collectResults rest).2)
      else
        ((collectResults rest).1,
         { agent := v.name, skillsGenerated := 0,
           status := "failed", error := v.error } :: (collectResults rest).2)
    | .rejected reason =>
      ((collectResults rest).1,
       { agent := "Unknown", skillsGenerated := 0,
         status := "failed", error := some reason } :: (collectResults rest).2)

/-- Model of the runtime's concurrent settlement: the tasks settle in the
completion order given by the schedule `sched` (a list of task indices);
each settle event records which slot it belongs to.  Indices outside the
task list settle nothing. -/
def settleEvents (tasks : List α) : List Nat → List (Nat × α)
  | [] => []
  | i :: rest =>
    match tasks.get? i with
    | some t => (i, t) :: settleEvents tasks rest
    | none => settleEvents tasks rest

/-- Model of `Promise.allSettled`: regardless of the completion order it
fills slot `i` of its result array with the settlement of task `i`. -/
def allSettledCollect (tasks : List α) (sched : List Nat) : List (Option α) :=
  (List.range tasks.length).map
    (fun i => ((settleEvents tasks sched).find? (fun e => e.1 == i)).map (fun e => e.2))

/-- The settled-result array `main` iterates over, reassembled from the
completion schedule. -/
def reassemble (tasks : List α) (sched : List Nat) : List α :=
  (allSettledCollect tasks sched).reduceOption

/-- Embedding of the sink loop (generate-skills.js lines 134-136) around
the spec-modelled `saveSkill`.  Modelled from the spec: `saveSkill`
(utils/skill-writer.js) is not under src/; per spec section 4.5 and
section 6 it persists one skill and reports success or failure *without
throwing*, so the loop hands every skill to the sink in order; `persist`
gives each call's outcome. -/
def persistAll (persist : Skill → Bool) : List Skill → List (Skill × Bool)
  | [] => []
  | s :: rest => (s, persist s) :: persistAll persist rest

/-- The `agentPromises` registration list of `main`
(generate-skills.js lines 51-88), with each entry's task already embedded
as its `Except` outcome. -/
def registeredAgents (fs : FSModel) (ts : TechStack) : List (String × Except String (List Skill)) :=
  [("Security Analyzer", generateSecuritySkills fs ts),
   ("Performance Analyzer", generatePerformanceSkills fs ts),
   ("React Analyzer", generateReactSkills fs ts),
   ("Backend Analyzer", generateBackendSkills fs ts),
   ("Frontend Analyzer", generateFrontendSkills fs ts),
   ("Database Analyzer", generateDatabaseSkills fs ts),
   ("API Analyzer", generateAPISkills fs ts),
   ("Testing Analyzer", generateTestingSkills fs ts),
   ("DevOps Analyzer", generateDevOpsSkills fs ts)]

/-- The fixed registration order of analyzer names. -/
def registeredNames : List String :=
  ["Security Analyzer", "Performance Analyzer", "React Analyzer",
   "Backend Analyzer", "Frontend Analyzer", "Database Analyzer",
   "API Analyzer", "Testing Analyzer", "DevOps Analyzer"]

/-- The wrapped, settled results of the registered agents as
`Promise.allSettled` receives them: the wrapper never throws, so every
promise fulfills. -/
def settleAllFulfilled (agents : List (String × Except String (List Skill))) :
    List (Settled AgentResult) :=
  agents.map (fun a => Settled.fulfilled (runAgent a.1 a.2))

/-- The summary report assembled by `main` (generate-skills.js lines
139-144). -/
structure Report where
  techStack : TechStack
  totalSkillsGenerated : Nat
  agents : List SummaryEntry
  timestamp : String
deriving DecidableEq, Repr

/-- Outcome of one run of `main`: a normal completion (the returned
report and skills, plus the recorded sink invocations) or the fatal path
(generate-skills.js lines 158-162), which exits with the given non-zero
code and produces no report. -/
inductive RunOutcome where
  | completed (report : Report) (skills : List Skill) (persisted : List (Skill × Bool))
  | fatal (exitCode : Nat)
deriving DecidableEq, Repr

/-- True exactly on the fatal path. -/
def RunOutcome.isFatal : RunOutcome → Bool
  | .completed _ _ _ => false
  | .fatal _ => true

/-- The report of a completed run, if one was produced. -/
def RunOutcome.getReport : RunOutcome → Option Report
  | .completed r _ _ => some r
  | .fatal _ => none

/-- Embedding of `main` (generate-skills.js lines 38-163) from the point
where the stack-building step has settled: a throwing stack build falls
into the outer catch (lines 158-162) and the process exits with code 1
before any report exists; otherwise the nine agents are launched, their
settled results aggregated, every collected skill handed to the sink, and
the report assembled.  `persist` is the sink collaborator's per-skill
outcome and `now` the timestamp. -/
def mainWithStack (stackResult : Except String TechStack) (fs : FSModel)
    (persist : Skill → Bool) (now : String) : RunOutcome :=
  match stackResult with
  | .error _ => .fatal 1
  | .ok ts =>
    let results := settleAllFulfilled (registeredAgents fs ts)
    let allSkills := (collectResults results).1
    let summary := (collectResults results).2
    let persisted := persistAll persist allSkills
    .completed
      { techStack := ts
        totalSkillsGenerated := allSkills.length
        agents := summary
        timestamp := now }
      allSkills persisted

/-- Embedding of a full run of `main`: `analyzeTechStack` is total (every
probe failure is swallowed inside it), so the stack-building step always
yields a `TechStack`. -/
def main (fs : FSModel) (persist : Skill → Bool) (now : String) : RunOutcome :=
  mainWithStack (.ok (analyzeTechStack fs)) fs persist now

/-- Number of skills in an embedded analyzer outcome. -/
def skillCount : Except String (List Skill) → Nat
  | .ok skills => skills.length
  | .error _ => 0

/-- The agent names of a summary, in order. -/
def summaryNames (entries : List SummaryEntry) : List String :=
  entries.map (fun e => e.agent)

/-- Sum of the skill counts of the successful summary entries. -/
def sumSuccess (entries : List SummaryEntry) : Nat :=
  ((entries.filter (fun e => e.status == "success")).map
    (fun e => e.skillsGenerated)).sum

/-- Whether an embedded task outcome is a fulfillment. -/
def exceptOk : Except String (List Skill) → Bool
  | .ok _ => true
  | .error _ => false

/-- The summary entry the aggregation loop produces for one registered
agent, given its task's outcome. -/
def expectedEntry (a : String × Except String (List Skill)) : SummaryEntry :=
  match a.2 with
  | .ok skills => { agent := a.1, skillsGenerated := skills.length,
                    status := "success", error := none }
  | .error e => { agent := a.1, skillsGenerated := 0,
                  status := "failed", error := some e }

/-- The skills one registered agent contributes to the collected list. -/
def okSkills (a : String × Except String (List Skill)) : List Skill :=
  match a.2 with
  | .ok skills => skills
  | .error _ => []

/-- The skills a completed run returned (none on the fatal path). -/
def RunOutcome.skillsOf : RunOutcome → List Skill
  | .completed _ s _ => s
  | .fatal _ => []

/-- The sink invocations a completed run performed. -/
def RunOutcome.persistedOf : RunOutcome → List (Skill × Bool)
  | .completed _ _ p => p
  | .fatal _ => []

/-- The `totalSkillsGenerated` of a completed run's report. -/
def RunOutcome.totalOf : RunOutcome → Nat
  | .completed r _ _ => r.totalSkillsGenerated
  | .fatal _ => 0

/-- The per-analyzer summary of a completed run's report. -/
def RunOutcome.agentsOf : RunOutcome → List SummaryEntry
  | .completed r _ _ => r.agents
  | .fatal _ => []

/-- A workspace whose package.json declares `sequelize` and whose
requirements.txt contains `sqlalchemy`: two distinct probes each
contribute the database identifier `SQL`. -/
def fsDup : FSModel :=
  { fsAbsent with
    pkgDeps := some ["sequelize"]
    reqExists := true
    reqContent := some "sqlalchemy" }

/-- A workspace on which the devops-analyzer CI/CD glob rejects. -/
def fsNoCicd : FSModel := { fsAbsent with cicdFiles := none }

/-- A candidate file whose content carries an async marker. -/
def feAsync : FEntry := { name := "a.ts", content := some "async function f()" }

/-- A candidate file whose content carries the useState marker. -/
def feUseState : FEntry := { name := "a.tsx", content := some "const x = useState(0)" }

/-- A two-agent registration in which the second agent's task rejects. -/
def demoAgents : List (String × Except String (List Skill)) :=
  [("Security Analyzer", .ok []), ("DevOps Analyzer", .error "boom")]

/-- The master list of identifiers the framework pushes can emit, in push
order. -/
def masterFrameworks : List String :=
  ["React", "Next.js", "Vue.js", "Angular", "Express", "NestJS", "Fastify", "Koa",
   "Django", "Flask", "FastAPI"]

/-- The master list for `databases`; `SQL` occurs twice because two
distinct probes push it. -/
def masterDatabases : List String :=
  ["MongoDB", "SQL", "PostgreSQL", "MySQL", "Redis", "Prisma", "SQL"]

/-- The master list for `buildTools`. -/
def masterBuildTools : List String :=
  ["Webpack", "Vite", "Rollup", "esbuild", "Docker"]

/-- The master list for `packageManagers`. -/
def masterPackageManagers : List String :=
  ["npm", "pip", "Maven", "Gradle"]

/-- The master list for `cloudProviders`. -/
def masterCloudProviders : List String :=
  ["Vercel", "Netlify", "AWS Lambda", "GitHub Actions", "Kubernetes"]

section Lemmas

/-- A conditional singleton prepended to a sublist stays a sublist of the
master list extended by that element. -/
theorem condList_append_sublist (b : Bool) (x : α) {l L : List α}
    (h : List.Sublist l L) : List.Sublist (condList b x ++ l) (x :: L) := by
  cases b
  · simpa [condList] using h.cons x
  · simpa [condList] using h.cons₂ x

/-- A conditional singleton is a sublist of its singleton master. -/
theorem condList_sublist (b : Bool) (x : α) : List.Sublist (condList b x) [x] := by
  cases b <;> simp [condList]

/-- The frameworks field never leaves its master list. -/
theorem tsFrameworks_sublist (fs : FSModel) :
    List.Sublist (tsFrameworks fs) masterFrameworks := by
  have hA : List.Sublist
      (match fs.pkgDeps with
       | some deps =>
         condList (hasDep deps "react" || hasDep deps "react-dom") "React" ++
         condList (hasDep deps "next") "Next.js" ++
         condList (hasDep deps "vue") "Vue.js" ++
         condList (hasDep deps "angular") "Angular" ++
         condList (hasDep deps "express") "Express" ++
         condList (hasDep deps "@nestjs/core") "NestJS" ++
         condList (hasDep deps "fastify") "Fastify" ++
         condList (hasDep deps "koa") "Koa"
       | none => [])
      ["React", "Next.js", "Vue.js", "Angular", "Express", "NestJS", "Fastify", "Koa"] := by
    cases fs.pkgDeps with
    | none => exact List.nil_sublist _
    | some deps =>
      simp only [List.append_assoc]
      exact condList_append_sublist _ _ (condList_append_sublist _ _
        (condList_append_sublist _ _ (condList_append_sublist _ _
          (condList_append_sublist _ _ (condList_append_sublist _ _
            (condList_append_sublist _ _ (condList_sublist _ _)))))))
  have hB : List.Sublist
      (if fs.reqExists then
        match fs.reqContent with
        | some req =>
          condList (containsSub req "django") "Django" ++
          condList (containsSub req "flask") "Flask" ++
          condList (containsSub req "fastapi") "FastAPI"
        | none => []
       else [])
      ["Django", "Flask", "FastAPI"] := by
    by_cases h : fs.reqExists
    · simp only [h, if_true]
      cases fs.reqContent with
      | none => exact List.nil_sublist _
      | some req =>
        simp only [List.append_assoc]
        exact condList_append_sublist _ _ (condList_append_sublist _ _
          (condList_sublist _ _))
    · simp only [h, if_false]
      exact List.nil_sublist _
  simpa [tsFrameworks, masterFrameworks] using hA.append hB

/-- The databases field never leaves its master list (in which `SQL`
occurs twice). -/
theorem tsDatabases_sublist (fs : FSModel) :
    List.Sublist (tsDatabases fs) masterDatabases := by
  have hA : List.Sublist
      (match fs.pkgDeps with
       | some deps =>
         condList (hasDep deps "mongoose") "MongoDB" ++
         condList (hasDep deps "sequelize" || hasDep deps "typeorm") "SQL" ++
         condList (hasDep deps "pg" || hasDep deps "pg-native") "PostgreSQL" ++
         condList (hasDep deps "mysql" || hasDep deps "mysql2") "MySQL" ++
         condList (hasDep deps "redis") "Redis" ++
         condList (hasDep deps "@prisma/client") "Prisma"
       | none => [])
      ["MongoDB", "SQL", "PostgreSQL", "MySQL", "Redis", "Prisma"] := by
    cases fs.pkgDeps with
    | none => exact List.nil_sublist _
    | some deps =>
      simp only [List.append_assoc]
      exact condList_append_sublist _ _ (condList_append_sublist _ _
        (condList_append_sublist _ _ (condList_append_sublist _ _
          (condList_append_sublist _ _ (condList_sublist _ _)))))
  have hB : List.Sublist
      (if fs.reqExists then
        match fs.reqContent with
        | some req => condList (containsSub req "sqlalchemy") "SQL"
        | none => []
       else [])
      ["SQL"] := by
    by_cases h : fs.reqExists
    · simp only [h, if_true]
      cases fs.reqContent with
      | none => exact List.nil_sublist _
      | some req => exact condList_sublist _ _
    · simp only [h, if_false]
      exact List.nil_sublist _
  simpa [tsDatabases, masterDatabases] using hA.append hB

/-- The buildTools field never leaves its master list. -/
theorem tsBuildTools_sublist (fs : FSModel) :
    List.Sublist (tsBuildTools fs) masterBuildTools := by
  have hA : List.Sublist
      (match fs.pkgDeps with
       | some deps =>
         condList (hasDep deps "webpack") "Webpack" ++
         condList (hasDep deps "vite") "Vite" ++
         condList (hasDep deps "rollup") "Rollup" ++
         condList (hasDep deps "esbuild") "esbuild"
       | none => [])
      ["Webpack", "Vite", "Rollup", "esbuild"] := by
    cases fs.pkgDeps with
    | none => exact List.nil_sublist _
    | some deps =>
      simp only [List.append_assoc]
      exact condList_append_sublist _ _ (condList_append_sublist _ _
        (condList_append_sublist _ _ (condList_sublist _ _)))
  have hB : List.Sublist (condList fs.hasDockerfile "Docker") ["Docker"] :=
    condList_sublist _ _
  simpa [tsBuildTools, masterBuildTools] using hA.append hB

/-- The packageManagers field never leaves its master list. -/
theorem tsPackageManagers_sublist (fs : FSModel) :
    List.Sublist (tsPackageManagers fs) masterPackageManagers := by
  have hC : List.Sublist
      (if fs.hasPomXml then ["Maven"]
       else if fs.hasBuildGradle then ["Gradle"]
       else [])
      ["Maven", "Gradle"] := by
    by_cases h1 : fs.hasPomXml
    · simp [h1]
    · by_cases h2 : fs.hasBuildGradle <;> simp [h1, h2]
  have hB : List.Sublist (condList fs.reqExists "pip" ++
      (if fs.hasPomXml then ["Maven"]
       else if fs.hasBuildGradle then ["Gradle"]
       else []))
      ("pip" :: ["Maven", "Gradle"]) := condList_append_sublist _ _ hC
  have hA := condList_append_sublist fs.pkgDeps.isSome "npm" hB
  simpa [tsPackageManagers, masterPackageManagers, List.append_assoc] using hA

/-- The cloudProviders field never leaves its master list. -/
theorem tsCloudProviders_sublist (fs : FSModel) :
    List.Sublist (tsCloudProviders fs) masterCloudProviders := by
  have hA : List.Sublist
      (match fs.cloudFiles with
       | some files =>
         condList (files.any (fun f => containsSub f "vercel")) "Vercel" ++
         condList (files.any (fun f => containsSub f "netlify")) "Netlify" ++
         condList (files.any (fun f => containsSub f "serverless")) "AWS Lambda" ++
         condList (files.any (fun f => containsSub f ".github/workflows")) "GitHub Actions"
       | none => [])
      ["Vercel", "Netlify", "AWS Lambda", "GitHub Actions"] := by
    cases fs.cloudFiles with
    | none => exact List.nil_sublist _
    | some files =>
      simp only [List.append_assoc]
      exact condList_append_sublist _ _ (condList_append_sublist _ _
        (condList_append_sublist _ _ (condList_sublist _ _)))
  have hB : List.Sublist
      (match fs.yamlFiles with
       | some files =>
         condList (files.any (fun f => containsSub f "k8s" || containsSub f "kubernetes"))
           "Kubernetes"
       | none => [])
      ["Kubernetes"] := by
    cases fs.yamlFiles with
    | none => exact List.nil_sublist _
    | some files => exact condList_sublist _ _
  simpa [tsCloudProviders, masterCloudProviders] using hA.append hB

/-- The aggregation loop over the wrapped (hence all fulfilled) agent
results computes exactly: the concatenation of the successful tasks'
skills, and one expected entry per registered agent, in registration
order. -/
theorem collect_settleAll (agents : List (String × Except String (List Skill))) :
    collectResults (settleAllFulfilled agents) =
      ((agents.map okSkills).flatten, agents.map expectedEntry) := by
  induction agents with
  | nil => rfl
  | cons a rest ih =>
    have hs : settleAllFulfilled (a :: rest) =
        Settled.fulfilled (runAgent a.1 a.2) :: settleAllFulfilled rest := rfl
    rw [hs]
    cases h : a.2 with
    | ok skills =>
      simp [collectResults, runAgent, okSkills, expectedEntry, h, ih]
    | error e =>
      simp [collectResults, runAgent, okSkills, expectedEntry, h, ih]

/-- Summing the successful entries' skill counts recovers the length of
the collected skill list. -/
theorem sumSuccess_expected (agents : List (String × Except String (List Skill))) :
    sumSuccess (agents.map expectedEntry) = ((agents.map okSkills).flatten).length := by
  induction agents with
  | nil => rfl
  | cons a rest ih =>
    cases h : a.2 with
    | ok skills => simp [sumSuccess, expectedEntry, okSkills, h] at ih ⊢; omega
    | error e => simpa [sumSuccess, expectedEntry, okSkills, h] using ih

/-- Failed summary entries correspond one-to-one to erring tasks. -/
theorem countFailed_expected (agents : List (String × Except String (List Skill))) :
    (agents.map expectedEntry).countP (fun en => en.status == "failed") =
      agents.countP (fun a => !(exceptOk a.2)) := by
  induction agents with
  | nil => rfl
  | cons a rest ih =>
    cases h : a.2 with
    | ok skills => simp [expectedEntry, exceptOk, h, List.countP_cons, ih]
    | error e => simp [expectedEntry, exceptOk, h, List.countP_cons, ih]

/-- The expected entry always carries the registered agent's name. -/
theorem expectedEntry_agent (a : String × Except String (List Skill)) :
    (expectedEntry a).agent = a.1 := by
  cases h : a.2 <;> simp [expectedEntry, h]

/-- The summary names are exactly the registered names, in order. -/
theorem summaryNames_expected (agents : List (String × Except String (List Skill))) :
    summaryNames (agents.map expectedEntry) = agents.map (fun a => a.1) := by
  induction agents with
  | nil => rfl
  | cons a rest ih =>
    simp [summaryNames] at ih ⊢
    exact ⟨expectedEntry_agent a, ih⟩

/-- The sink loop hands every skill through, in order, whatever the
per-skill outcomes are. -/
theorem persistAll_fst (persist : Skill → Bool) (skills : List Skill) :
    (persistAll persist skills).map Prod.fst = skills := by
  induction skills with
  | nil => rfl
  | cons s rest ih => simp [persistAll, ih]

/-- The sink loop performs one invocation per skill. -/
theorem persistAll_length (persist : Skill → Bool) (skills : List Skill) :
    (persistAll persist skills).length = skills.length := by
  induction skills with
  | nil => rfl
  | cons s rest ih => simp [persistAll, ih]

/-- Every settle event belongs to the slot it claims. -/
theorem settleEvents_mem {tasks : List α} {sched : List Nat} {e : Nat × α}
    (h : e ∈ settleEvents tasks sched) : tasks.get? e.1 = some e.2 := by
  induction sched with
  | nil => cases h
  | cons j rest ih =>
    unfold settleEvents at h
    cases hg : tasks.get? j with
    | some t =>
      rw [hg] at h
      rcases List.mem_cons.mp h with h1 | h1
      · subst h1; exact hg
      · exact ih h1
    | none =>
      rw [hg] at h
      exact ih h

/-- If slot `i` exists and index `i` occurs in the schedule, the slot
lookup finds exactly task `i`'s settlement. -/
theorem settleEvents_find (tasks : List α) (sched : List Nat) (i : Nat) (t : α)
    (hget : tasks.get? i = some t) (hmem : i ∈ sched) :
    (settleEvents tasks sched).find? (fun e => e.1 == i) = some (i, t) := by
  induction sched with
  | nil => cases hmem
  | cons j rest ih =>
    by_cases hji : j = i
    · subst hji
      unfold settleEvents
      rw [hget]
      simp
    · have hmem' : i ∈ rest := by
        rcases List.mem_cons.mp hmem with h1 | h1
        · exact absurd h1.symm hji
        · exact h1
      unfold settleEvents
      cases hg : tasks.get? j with
      | some u =>
        rw [List.find?_cons_of_neg _ (by simp [hji])]
        exact ih hmem'
      | none => exact ih hmem'

/-- `(l.map some).reduceOption` recovers `l`. -/
theorem reduceOption_map_some (l : List α) : (l.map some).reduceOption = l := by
  induction l <;> simp [*]

/-- Under any completion schedule that lets every task settle, the array
`Promise.allSettled` resolves with is the task array in input order. -/
theorem reassemble_covering (tasks : List α) (sched : List Nat)
    (h : ∀ i, i < tasks.length → i ∈ sched) :
    reassemble tasks sched = tasks := by
  have hcol : allSettledCollect tasks sched = tasks.map some := by
    apply List.ext_getElem
    · simp [allSettledCollect]
    · intro i h1 h2
      have hi : i < tasks.length := by simpa [allSettledCollect] using h1
      have hget : tasks.get? i = some tasks[i] := by
        simp [List.get?_eq_getElem?, List.getElem?_eq_getElem hi]
      have hfind := settleEvents_find tasks sched i tasks[i] hget (h i hi)
      simp [allSettledCollect, hfind]
  unfold reassemble
  rw [hcol]
  exact reduceOption_map_some tasks

/-- The api-analyzer loop inspects exactly one file per iteration. -/
theorem apiScan_foldl_inspected (l : List FEntry) (acc : ApiScanResult) :
    (l.foldl apiScanStep acc).inspected = acc.inspected + l.length := by
  induction l generalizing acc with
  | nil => simp
  | cons e rest ih =>
    cases h : e.content <;> simp [apiScanStep, h, ih] <;> omega

/-- The react hooks loop inspects exactly one file per iteration. -/
theorem reactScan_foldl_inspected (l : List FEntry) (acc : ReactScanResult) :
    (l.foldl reactScanStep acc).inspected = acc.inspected + l.length := by
  induction l generalizing acc with
  | nil => simp
  | cons e rest ih =>
    cases h : e.content <;> simp [reactScanStep, h, ih] <;> omega

/-- The state-management loop inspects exactly one file per iteration. -/
theorem stateScan_foldl_inspected (l : List FEntry) (acc : StateScanResult) :
    (l.foldl stateScanStep acc).inspected = acc.inspected + l.length := by
  induction l generalizing acc with
  | nil => simp
  | cons e rest ih =>
    cases h : e.content <;> simp [stateScanStep, h, ih] <;> omega

/-- The async-pattern loop inspects at most one file per candidate. -/
theorem perfScanGo_le (l : List FEntry) : (perfScanGo l).2 ≤ l.length := by
  induction l with
  | nil => simp [perfScanGo]
  | cons e rest ih =>
    cases h : e.content with
    | some c =>
      by_cases hm : (containsSub c "async" || containsSub c "await" ||
          containsSub c "Promise") = true
      · simp [perfScanGo, h, hm]
      · simp only [perfScanGo, h, if_neg hm, List.length_cons]
        omega
    | none =>
      simp only [perfScanGo, h, List.length_cons]
      omega

end Lemmas

/-- C1 (corrected): it is still true that when the stack-building step
throws, the outer catch of `main` terminates the run fatally with exit
code 1 and no report; but stack building never fails: on every workspace
— a nonexistent root included — `analyzeTechStack` swallows all probe
failures, returns a (possibly empty) `TechStack`, and the run completes
with a report. -/
theorem C1_amended :
    (∀ (e : String) (fs : FSModel) (persist : Skill → Bool) (now : String),
       mainWithStack (.error e) fs persist now = .fatal 1) ∧
    (∀ (fs : FSModel) (persist : Skill → Bool) (now : String),
       (main fs persist now).isFatal = false ∧
       (main fs persist now).getReport.isSome = true) := by
  refine ⟨?_, ?_⟩
  · intro e fs p n
    rfl
  · intro fs p n
    exact ⟨rfl, rfl⟩

/-- C1 counterexample: on a workspace root that does not exist every probe
fails, yet the run does not terminate fatally — it completes and produces
an `AnalysisReport`, contrary to the claimed fatal, report-free, non-zero
outcome. -/
theorem C1_counterexample :
    (main fsAbsent (fun _ => true) "2026-01-01T00:00:00.000Z").isFatal = false ∧
    (main fsAbsent (fun _ => true) "2026-01-01T00:00:00.000Z").getReport.isSome = true :=
  ⟨rfl, rfl⟩

/-- C2: every per-agent failure is caught at the wrapper boundary and
becomes a failed summary entry; the aggregation produces exactly one
entry per registered agent in registration order whatever subset of
tasks fail, and the run itself never aborts. -/
theorem C2_isolation (agents : List (String × Except String (List Skill))) :
    (collectResults (settleAllFulfilled agents)).2 = agents.map expectedEntry ∧
    ((collectResults (settleAllFulfilled agents)).2).length = agents.length ∧
    (∀ (fs : FSModel) (persist : Skill → Bool) (now : String),
       (main fs persist now).isFatal = false) := by
  refine ⟨?_, ?_, ?_⟩
  · simp [collect_settleAll]
  · simp [collect_settleAll]
  · intro fs p n
    rfl

/-- C3: the collected skill count (which is `totalSkillsGenerated` and
the number of skills handed to the sink) equals the sum of the
successful entries' skill counts; each failed task yields exactly one
failed entry, with its error string recorded. -/
theorem C3_totals :
    (∀ agents : List (String × Except String (List Skill)),
       (collectResults (settleAllFulfilled agents)).1.length =
         sumSuccess (collectResults (settleAllFulfilled agents)).2) ∧
    (∀ (fs : FSModel) (persist : Skill → Bool) (now : String),
       (main fs persist now).totalOf = ((main fs persist now).persistedOf).length ∧
       (main fs persist now).totalOf = sumSuccess ((main fs persist now).agentsOf)) ∧
    (∀ agents : List (String × Except String (List Skill)),
       ((collectResults (settleAllFulfilled agents)).2).countP
           (fun en => en.status == "failed") =
         agents.countP (fun a => !(exceptOk a.2))) ∧
    (∀ (agents : List (String × Except String (List Skill))) (name e : String),
       (name, Except.error e) ∈ agents →
       ({ agent := name, skillsGenerated := 0, status := "failed",
          error := some e } : SummaryEntry) ∈
         (collectResults (settleAllFulfilled agents)).2) := by
  refine ⟨?_, ?_, ?_, ?_⟩
  · intro agents
    simp [collect_settleAll, sumSuccess_expected]
  · intro fs p n
    constructor
    · show (collectResults (settleAllFulfilled
          (registeredAgents fs (analyzeTechStack fs)))).1.length =
        (persistAll p (collectResults (settleAllFulfilled
          (registeredAgents fs (analyzeTechStack fs)))).1).length
      rw [persistAll_length]
    · show (collectResults (settleAllFulfilled
          (registeredAgents fs (analyzeTechStack fs)))).1.length =
        sumSuccess (collectResults (settleAllFulfilled
          (registeredAgents fs (analyzeTechStack fs)))).2
      simp [collect_settleAll, sumSuccess_expected]
  · intro agents
    rw [collect_settleAll]
    exact countFailed_expected agents
  · intro agents name e h
    rw [collect_settleAll]
    exact List.mem_map.mpr ⟨(name, .error e), h, rfl⟩

/-- Witness for C3: in a concrete two-agent run whose second task throws
`boom`, the summary records that failure under the agent's real name. -/
theorem C3_witness :
    ({ agent := "DevOps Analyzer", skillsGenerated := 0, status := "failed",
       error := some "boom" } : SummaryEntry) ∈
      (collectResults (settleAllFulfilled demoAgents)).2 :=
  C3_totals.2.2.2 demoAgents "DevOps Analyzer" "boom" (by simp [demoAgents])

/-- C4: under every completion schedule that lets all registered agent
tasks settle, the per-analyzer summary lists the analyzers in their
fixed registration order — never in completion order. -/
theorem C4_report_order (fs : FSModel) (ts : TechStack) (sched : List Nat)
    (hc : ∀ i, i < (settleAllFulfilled (registeredAgents fs ts)).length → i ∈ sched) :
    summaryNames ((collectResults (reassemble
        (settleAllFulfilled (registeredAgents fs ts)) sched)).2) = registeredNames := by
  rw [reassemble_covering _ _ hc, collect_settleAll]
  show summaryNames ((registeredAgents fs ts).map expectedEntry) = registeredNames
  rw [summaryNames_expected]
  rfl

/-- Witness for C4: with the completion order fully reversed, the summary
still lists the nine analyzers in registration order. -/
theorem C4_witness :
    summaryNames ((collectResults (reassemble
        (settleAllFulfilled (registeredAgents fsAbsent tsNone))
        [8, 7, 6, 5, 4, 3, 2, 1, 0])).2) = registeredNames :=
  C4_report_order fsAbsent tsNone [8, 7, 6, 5, 4, 3, 2, 1, 0] (by
    simp only [settleAllFulfilled, registeredAgents, List.map_cons, List.map_nil,
      List.length_cons, List.length_nil]
    decide)

/-- C5 (corrected): four of the five set-valued fields are duplicate-free
on every workspace, and `databases` is duplicate-free apart from `SQL`,
which can be contributed once by the Node ORM probe and once by the
`sqlalchemy` probe (never more than twice). -/
theorem C5_amended (fs : FSModel) :
    (analyzeTechStack fs).frameworks.Nodup ∧
    (analyzeTechStack fs).buildTools.Nodup ∧
    (analyzeTechStack fs).packageManagers.Nodup ∧
    (analyzeTechStack fs).cloudProviders.Nodup ∧
    (analyzeTechStack fs).databases.count "SQL" ≤ 2 ∧
    ((analyzeTechStack fs).databases.filter (fun d => !(d == "SQL"))).Nodup := by
  refine ⟨?_, ?_, ?_, ?_, ?_, ?_⟩
  · exact ((by decide : masterFrameworks.Nodup)).sublist (tsFrameworks_sublist fs)
  · exact ((by decide : masterBuildTools.Nodup)).sublist (tsBuildTools_sublist fs)
  · exact ((by decide : masterPackageManagers.Nodup)).sublist (tsPackageManagers_sublist fs)
  · exact ((by decide : masterCloudProviders.Nodup)).sublist (tsCloudProviders_sublist fs)
  · have h := (tsDatabases_sublist fs).count_le "SQL"
    have hm : masterDatabases.count "SQL" = 2 := by decide
    show (tsDatabases fs).count "SQL" ≤ 2
    omega
  · exact ((by decide : (masterDatabases.filter (fun d => !(d == "SQL"))).Nodup)).sublist
      ((tsDatabases_sublist fs).filter _)

/-- C5 counterexample: a workspace whose package.json declares
`sequelize` and whose requirements.txt contains `sqlalchemy` yields
`databases = [SQL, SQL]` — the identifier appears twice, so the field is
not duplicate-free. -/
theorem C5_counterexample :
    (analyzeTechStack fsDup).databases = ["SQL", "SQL"] ∧
    ¬ (analyzeTechStack fsDup).databases.Nodup := by
  exact ⟨by decide, by decide⟩

/-- C6 (corrected): the React analyzer does return an empty skill
sequence whenever the React flag is false (a hard guard before its try
block); but the DevOps analyzer has no such guard — on a workspace with
no CI/CD, Docker, Kubernetes, Terraform, env-file or cloud evidence it
still returns one generic devops skill. -/
theorem C6_guard_amended :
    (∀ (fs : FSModel) (ts : TechStack), ts.hasReact = false →
       generateReactSkills fs ts = .ok []) ∧
    skillCount (generateDevOpsSkills fsAbsent tsNone) = 1 := by
  constructor
  · intro fs ts h
    simp [generateReactSkills, h]
  · rfl

/-- Witness for C6: the guard fires on a concrete React-free stack. -/
theorem C6_witness : generateReactSkills fsAbsent tsNone = .ok [] :=
  C6_guard_amended.1 fsAbsent tsNone rfl

/-- C6 counterexample: with every DevOps precondition absent the DevOps
analyzer still produces a (generic) skill rather than an empty
sequence. -/
theorem C6_counterexample : skillCount (generateDevOpsSkills fsAbsent tsNone) ≠ 0 := by
  decide

/-- C7 (corrected): every content-marker loop inspects at most its fixed
cap of candidate files (20 for the api and async scans, 30 for the React
hooks scan, 10 for the state-management scan), and the async-pattern
scan stops at the first positive match; but the React hooks scan (and
its siblings) has no break — it always inspects the whole capped prefix,
even after a positive match. -/
theorem C7_caps_amended :
    (∀ entries : List FEntry,
       (perfAsyncScan entries).2 ≤ 20 ∧
       (apiScan entries).inspected ≤ 20 ∧
       (reactHooksScan entries).inspected ≤ 30 ∧
       (stateScan entries).inspected ≤ 10) ∧
    (∀ (e : FEntry) (rest : List FEntry) (c : String),
       e.content = some c →
       (containsSub c "async" || containsSub c "await" || containsSub c "Promise") = true →
       perfAsyncScan (e :: rest) = (true, 1)) ∧
    (∀ entries : List FEntry,
       (reactHooksScan entries).inspected = (entries.take 30).length) := by
  refine ⟨?_, ?_, ?_⟩
  · intro entries
    refine ⟨?_, ?_, ?_, ?_⟩
    · exact le_trans (perfScanGo_le (entries.take 20)) (List.length_take_le _ _)
    · have h := apiScan_foldl_inspected (entries.take 20) ⟨false, false, 0⟩
      simp [apiScan, h]
    · have h := reactScan_foldl_inspected (entries.take 30)
        ⟨false, false, false, false, false, 0⟩
      simp [reactHooksScan, h]
    · have h := stateScan_foldl_inspected (entries.take 10) ⟨false, false, false, 0⟩
      simp [stateScan, h]
  · intro e rest c hc hm
    show perfScanGo ((e :: rest).take 20) = (true, 1)
    simp [perfScanGo, hc, hm]
  · intro entries
    have h := reactScan_foldl_inspected (entries.take 30)
      ⟨false, false, false, false, false, 0⟩
    simpa [reactHooksScan] using h

/-- Witness for C7: on a two-file candidate list whose first file carries
an async marker, the async-pattern scan stops after one inspection. -/
theorem C7_witness : perfAsyncScan [feAsync, feAsync] = (true, 1) :=
  C7_caps_amended.2.1 feAsync [feAsync] "async function f()" rfl (by decide)

/-- C7 counterexample: the React hooks scan does not stop at the first
positive match — the first file already sets the flag, yet both files
get inspected. -/
theorem C7_counterexample :
    (reactHooksScan [feUseState]).usesState = true ∧
    (reactHooksScan [feUseState, feUseState]).inspected = 2 :=
  ⟨by decide, by decide⟩

/-- C8: the sink loop hands every collected skill to the sink, one at a
time, in report order, for every per-skill success/failure assignment —
a persistence failure never suppresses the remaining invocations. -/
theorem C8_sink :
    (∀ (persist : Skill → Bool) (skills : List Skill),
       (persistAll persist skills).map Prod.fst = skills) ∧
    (∀ (fs : FSModel) (persist : Skill → Bool) (now : String),
       ((main fs persist now).persistedOf).map Prod.fst = (main fs persist now).skillsOf) := by
  constructor
  · exact persistAll_fst
  · intro fs p n
    exact persistAll_fst p _

/-- C9: every wrapped agent task fulfills (the wrapper catches all
throws), so the rejected branch of the aggregation loop — which would
record an entry named `Unknown` — never fires: the summary carries the
real registered names, in order, and `Unknown` is never among them. -/
theorem C9_no_unknown (fs : FSModel) (ts : TechStack) :
    (∀ r ∈ settleAllFulfilled (registeredAgents fs ts), ∃ v, r = Settled.fulfilled v) ∧
    summaryNames ((collectResults (settleAllFulfilled (registeredAgents fs ts))).2) =
      registeredNames ∧
    "Unknown" ∉ summaryNames ((collectResults (settleAllFulfilled (registeredAgents fs ts))).2) := by
  have hnames : summaryNames ((collectResults (settleAllFulfilled
      (registeredAgents fs ts))).2) = registeredNames := by
    rw [collect_settleAll]
    show summaryNames ((registeredAgents fs ts).map expectedEntry) = registeredNames
    rw [summaryNames_expected]
    rfl
  refine ⟨?_, hnames, ?_⟩
  · intro r hr
    rcases List.mem_map.mp hr with ⟨a, _, rfl⟩
    exact ⟨_, rfl⟩
  · rw [hnames]
    decide

/-- Witness for C9: the first registered task's settlement is a
fulfillment. -/
theorem C9_witness :
    ∃ v, Settled.fulfilled (runAgent "Security Analyzer"
        (generateSecuritySkills fsAbsent tsNone)) = Settled.fulfilled v :=
  (C9_no_unknown fsAbsent tsNone).1 _ (by simp [settleAllFulfilled, registeredAgents])

/-- C10: each of the nine registered analyzer functions wraps its probing
and skill construction in an internal try/catch and returns its local
skills array in all cases, so every task fulfills and every outcome in
the report is a success; an internal failure (for instance the devops
CI/CD glob rejecting) yields the already-accumulated — here empty —
skill list, indistinguishable from an inapplicable domain. -/
theorem C10_analyzers_total (fs : FSModel) (ts : TechStack) :
    (∀ a ∈ registeredAgents fs ts, ∃ skills, a.2 = Except.ok skills) ∧
    (∀ a ∈ registeredAgents fs ts, (runAgent a.1 a.2).success = true) ∧
    (fs.cicdFiles = none → generateDevOpsSkills fs ts = .ok []) := by
  refine ⟨?_, ?_, ?_⟩
  · intro a ha
    simp only [registeredAgents, List.mem_cons, List.not_mem_nil, or_false] at ha
    rcases ha with rfl | rfl | rfl | rfl | rfl | rfl | rfl | rfl | rfl <;> exact ⟨_, rfl⟩
  · intro a ha
    simp only [registeredAgents, List.mem_cons, List.not_mem_nil, or_false] at ha
    rcases ha with rfl | rfl | rfl | rfl | rfl | rfl | rfl | rfl | rfl <;> rfl
  · intro h
    have hb : generateDevOpsSkillsBody fs ts = Except.error "ENOENT" := by
      unfold generateDevOpsSkillsBody
      rw [h]
      rfl
    simp [generateDevOpsSkills, hb]

/-- Witness for C10: on a workspace whose CI/CD glob rejects, the
security task still fulfills and the DevOps analyzer returns the empty
skill list as a success. -/
theorem C10_witness :
    (∃ skills, generateSecuritySkills fsNoCicd tsNone = Except.ok skills) ∧
    generateDevOpsSkills fsNoCicd tsNone = .ok [] := by
  refine ⟨(C10_analyzers_total fsNoCicd tsNone).1
    ("Security Analyzer", generateSecuritySkills fsNoCicd tsNone) ?_,
    (C10_analyzers_total fsNoCicd tsNone).2.2 rfl⟩
  simp [registeredAgents]

end SkillGen
